import Mathlib

/-!
Verification of the AtomGuard phishing-detection backend (Python sources under
`backend/`).  The development shallowly embeds the decision-fusion core of
`backend/app.py` (`analyze_url`), the heuristic explainer
`backend/rules/rule_engine.py` (`RuleEngine.analyze`) and the ML vector
extractor `backend/ml_feature_extractor.py` (`extract_features`).

Modelling conventions:
* Python floats are modelled as rationals (`ℚ`); the decision thresholds
  (0.7, 0.4, 0.85) are exact decimal literals in the source and are embedded
  as the corresponding rationals.
* `round(x, 2)` (Python 3 banker's rounding) is embedded as `pyRound2`.
* Strings are embedded as Lean `String`s; Python's `str.lower` is modelled
  by ASCII `Char.toLower` (all strings compared by the program are ASCII).
* The classifier itself is an opaque capability; the pipeline model takes the
  probability it returned (field `p` of `FusionInput`) as an input, exactly
  as `analyze_url` consumes `predict_proba`'s output.  `mlAvailable = false`
  models "classifier absent or its invocation failed" (the code's
  `ml_available` flag).
* `extract_domain(url) or ""` of `backend/utils/helpers.py` is the `domain`
  field of `FusionInput`; claims quantify over the extracted domain.
* `ipaddress.ip_address(domain).is_private` is embedded for the IPv4 branch
  (dotted-quad literals, the only host shape the claims exercise); the
  private ranges are those of Python's IPv4 `is_private`
  (iana-ipv4-special-registry).
* The eight explanation templates assembled in `analyze_url` are abstracted
  to the inductive `ExplMode` recording which template the `if/elif` chain
  selected; the claims are about which branch fires, not the literal text.
-/

/-- Verdict strings "SAFE" / "SUSPICIOUS" / "PHISHING" of the backend. -/
inductive Verdict where
  | SAFE
  | SUSPICIOUS
  | PHISHING
deriving DecidableEq

/-- Risk-level strings "Low" / "Medium" / "High" of the backend. -/
inductive RiskLevel where
  | Low
  | Medium
  | High
deriving DecidableEq

/-- Which explanation template of `analyze_url` produced the final
`explanation` string (one constructor per branch of the `if/elif` chains at
app.py lines 370-404 and 420-470). -/
inductive ExplMode where
  | trustedOverride
  | privateIP
  | confidenceGating
  | pureMLPhishing
  | pureMLSuspicious
  | pureMLSafe
  | fallbackTrusted
  | fallbackRule
deriving DecidableEq

/-- Floor of a rational, computed on the normalised numerator/denominator. -/
def ratFloor (q : ℚ) : ℤ := Int.fdiv q.num (Int.ofNat q.den)

/-- Round-half-to-even on a rational, as Python 3's `round` does on the
fractional part. -/
def roundHalfEven (q : ℚ) : ℤ :=
  let n := ratFloor q
  let frac := q - (n : ℚ)
  if frac < mkRat 1 2 then n
  else if mkRat 1 2 < frac then n + 1
  else if n % 2 = 0 then n else n + 1

/-- Python `round(x, 2)`: round to two decimal places, ties to even. -/
def pyRound2 (x : ℚ) : ℚ := ((roundHalfEven (x * 100) : ℤ) : ℚ) / 100

/-- `ml_confidence = max(0.0, min(1.0, ml_confidence))` (app.py line 265). -/
def clamp01 (x : ℚ) : ℚ := max 0 (min 1 x)

/-- The ML decision thresholds of app.py lines 268-273:
`>= 0.7` PHISHING, `>= 0.4` SUSPICIOUS, otherwise SAFE. -/
def thresholdVerdict (c : ℚ) : Verdict :=
  if mkRat 7 10 ≤ c then Verdict.PHISHING
  else if mkRat 2 5 ≤ c then Verdict.SUSPICIOUS
  else Verdict.SAFE

/-- `TRUSTED_DOMAINS` of app.py lines 42-50. -/
def TRUSTED_DOMAINS : List String :=
  ["wikipedia.org", "google.com", "github.com", "microsoft.com",
   "apple.com", "amazon.com", "openai.com"]

/-- `PHISHING_HARD_THRESHOLD = 0.85` of app.py line 56. -/
def PHISHING_HARD_THRESHOLD : ℚ := mkRat 17 20

/-- Python `s.endswith(t)`. -/
def strEndsWith (s t : String) : Bool := t.toList.isSuffixOf s.toList

/-- `any(domain == trusted or domain.endswith("." + trusted) for trusted in
TRUSTED_DOMAINS)` (app.py lines 324-327). -/
def is_trusted (domain : String) : Bool :=
  TRUSTED_DOMAINS.any (fun trusted =>
    domain == trusted || strEndsWith domain ("." ++ trusted))

/-- Split a character list at every `'.'` (Python `str.split('.')`). -/
def splitDots : List Char → List Char → List (List Char)
  | [], acc => [acc.reverse]
  | c :: rest, acc =>
    if c = '.' then acc.reverse :: splitDots rest []
    else splitDots rest (c :: acc)

/-- Numeric value of a list of decimal digit characters. -/
def digitsVal (cs : List Char) : Nat :=
  cs.foldl (fun acc c => acc * 10 + (c.toNat - '0'.toNat)) 0

/-- One octet of a dotted-quad IPv4 literal, per Python
`ipaddress.IPv4Address._parse_octet`: 1-3 ASCII digits, no leading zero, and
value at most 255. -/
def parse_octet (cs : List Char) : Option Nat :=
  if cs.length = 0 ∨ 3 < cs.length then none
  else if ¬ (cs.all Char.isDigit) then none
  else if 1 < cs.length ∧ cs.headD ' ' = '0' then none
  else
    let n := digitsVal cs
    if n ≤ 255 then some n else none

/-- `ipaddress.ip_address(s)` restricted to dotted-quad IPv4 literals:
four octets separated by dots, or `none` (the `ValueError` branch). -/
def parse_ipv4 (s : String) : Option (Nat × Nat × Nat × Nat) :=
  match splitDots s.toList [] with
  | [a, b, c, d] =>
    match parse_octet a, parse_octet b, parse_octet c, parse_octet d with
    | some w, some x, some y, some z => some (w, x, y, z)
    | _, _, _, _ => none
  | _ => none

/-- `IPv4Address.is_private`: membership in the private networks of the
iana-ipv4-special-registry (0.0.0.0/8, 10.0.0.0/8, 127.0.0.0/8,
169.254.0.0/16, 172.16.0.0/12, 192.0.0.0/29, 192.0.0.170/31, 192.0.2.0/24,
192.168.0.0/16, 198.18.0.0/15, 198.51.100.0/24, 203.0.113.0/24,
240.0.0.0/4, 255.255.255.255/32). -/
def ipv4_is_private (a b c d : Nat) : Bool :=
  a = 0 || a = 10 || a = 127 ||
  (a = 169 && b = 254) ||
  (a = 172 && 16 ≤ b && b ≤ 31) ||
  (a = 192 && b = 0 && c = 0 && d ≤ 7) ||
  (a = 192 && b = 0 && c = 0 && (d = 170 || d = 171)) ||
  (a = 192 && b = 0 && c = 2) ||
  (a = 192 && b = 168) ||
  (a = 198 && (b = 18 || b = 19)) ||
  (a = 198 && b = 51 && c = 100) ||
  (a = 203 && b = 0 && c = 113) ||
  240 ≤ a

/-- The guarded `ipaddress.ip_address(domain)` / `is_private` test of
app.py lines 345-357: `true` exactly when `domain` parses as an IPv4
literal in a private range; a parse failure (`ValueError`) yields `false`. -/
def is_private_ip (domain : String) : Bool :=
  match parse_ipv4 domain with
  | some (a, b, c, d) => ipv4_is_private a b c d
  | none => false

/-- The three hardening flags of app.py lines 314-316. -/
structure HardeningFlags where
  trusted_domain_override : Bool
  confidence_gating_applied : Bool
  private_ip_detected : Bool
deriving DecidableEq

/-- The three post-ML hardening layers of app.py lines 322-357, applied in
source order to the thresholded verdict `v0`: trusted-domain override, then
confidence gating, then private-IP handling.  Returns the adjusted verdict
together with the flags set along the way.  `ml_confidence` is never
touched. -/
def applyHardening (domain : String) (mlConf : ℚ) (v0 : Verdict) :
    Verdict × HardeningFlags :=
  let overrideFired := if is_trusted domain = true ∧ v0 = Verdict.PHISHING
    then true else false
  let v1 := if overrideFired = true then Verdict.SAFE else v0
  let gatingFired :=
    if v1 = Verdict.PHISHING ∧ mlConf < PHISHING_HARD_THRESHOLD
    then true else false
  let v2 := if gatingFired = true then Verdict.SUSPICIOUS else v1
  let privIp := is_private_ip domain
  let v3 := if privIp = true ∧ v2 = Verdict.PHISHING
    then Verdict.SUSPICIOUS else v2
  (v3, ⟨overrideFired, gatingFired, privIp⟩)

/-- Hardening outcome for a raw classifier probability `p`: the code first
clamps `p`, thresholds it, then runs the three layers. -/
def hardeningOutcome (domain : String) (p : ℚ) : Verdict × HardeningFlags :=
  applyHardening domain (clamp01 p) (thresholdVerdict (clamp01 p))

/-- Risk level from the final verdict (app.py lines 410-415). -/
def riskOf (v : Verdict) : RiskLevel :=
  match v with
  | Verdict.PHISHING => RiskLevel.High
  | Verdict.SUSPICIOUS => RiskLevel.Medium
  | Verdict.SAFE => RiskLevel.Low

/-- The explanation `if/elif` chain of app.py lines 420-470 on the
classifier path.  It picks exactly one template, in dispatch order
trusted-override, private-IP, confidence-gating, then the three pure-ML
templates, and the first two branches also overwrite the risk level
(`Low` and `Medium` respectively). -/
def explanationAndRisk (flags : HardeningFlags) (v : Verdict)
    (risk : RiskLevel) : ExplMode × RiskLevel :=
  if flags.trusted_domain_override = true then
    (ExplMode.trustedOverride, RiskLevel.Low)
  else if flags.private_ip_detected = true then
    (ExplMode.privateIP, RiskLevel.Medium)
  else if flags.confidence_gating_applied = true then
    (ExplMode.confidenceGating, risk)
  else if v = Verdict.PHISHING then (ExplMode.pureMLPhishing, risk)
  else if v = Verdict.SUSPICIOUS then (ExplMode.pureMLSuspicious, risk)
  else (ExplMode.pureMLSafe, risk)

/-- The externally observed decision part of the response built at
app.py lines 474-485 (`confidence` is `round(ml_confidence * 100, 2)`). -/
structure AnalysisDecision where
  verdict : Verdict
  riskLevel : RiskLevel
  confidence : ℚ
  mlAvailable : Bool
  explanation : ExplMode
deriving DecidableEq

/-- Classifier path of `analyze_url` (app.py lines 262-273, 314-357,
408-470, 474-487): clamp the probability, threshold it, apply the three
hardening layers, derive the risk level, select the explanation template,
and report `round(ml_confidence * 100, 2)` as confidence. -/
def classifierPathResult (domain : String) (p : ℚ) : AnalysisDecision :=
  let mlConf := clamp01 p
  let vf := (hardeningOutcome domain p).1
  let flags := (hardeningOutcome domain p).2
  let er := explanationAndRisk flags vf (riskOf vf)
  { verdict := vf
    riskLevel := er.2
    confidence := pyRound2 (mlConf * 100)
    mlAvailable := true
    explanation := er.1 }

/-- `safe_domains` of the fallback branch (app.py lines 364-368). -/
def FALLBACK_SAFE_DOMAINS : List String :=
  ["google.com", "www.google.com", "accounts.google.com"]

/-- Fallback branch of `analyze_url` (app.py lines 361-406): a hardcoded
safe-domain allowlist forces SAFE/Low, otherwise the rule verdict is used
as a hint with PHISHING capped to SUSPICIOUS and risk capped at Medium;
`ml_confidence` is forced to 0 in both branches.  `ruleVerdict = none`
models `rule_result.get("verdict", "SUSPICIOUS")` when the rule engine
failed and its result dictionary has no verdict key. -/
def fallbackResult (domain : String) (ruleVerdict : Option Verdict) :
    AnalysisDecision :=
  if FALLBACK_SAFE_DOMAINS.contains domain then
    { verdict := Verdict.SAFE
      riskLevel := RiskLevel.Low
      confidence := pyRound2 (0 * 100)
      mlAvailable := false
      explanation := ExplMode.fallbackTrusted }
  else
    let base := ruleVerdict.getD Verdict.SUSPICIOUS
    let v := match base with
      | Verdict.PHISHING => Verdict.SUSPICIOUS
      | b => b
    let risk := if v = Verdict.SAFE then RiskLevel.Low else RiskLevel.Medium
    { verdict := v
      riskLevel := risk
      confidence := pyRound2 (0 * 100)
      mlAvailable := false
      explanation := ExplMode.fallbackRule }

/-- Input to the decision-fusion core: whether the classifier ran
successfully, the probability it returned (meaningful only when it did),
the extracted domain (`extract_domain(url) or ""`), and the rule engine's
verdict (used only in fallback). -/
structure FusionInput where
  mlAvailable : Bool
  p : ℚ
  domain : String
  ruleVerdict : Option Verdict

/-- The decision-fusion core of `analyze_url`: classifier path when the
classifier is available, fallback otherwise. -/
def analyzeDecision (inp : FusionInput) : AnalysisDecision :=
  if inp.mlAvailable then classifierPathResult inp.domain inp.p
  else fallbackResult inp.domain inp.ruleVerdict

/-! ## Heuristic explainer: `RuleEngine.analyze` (rules/rule_engine.py) -/

/-- One evidence item `{label, status, icon}` appended by the rule engine. -/
structure EvidenceItem where
  label : String
  status : String
  icon : String
deriving DecidableEq

/-- The feature values the rule engine reads from its feature dictionary;
each field is the value of the corresponding `features.get(key, default)`
call in `RuleEngine.analyze`. -/
structure RuleFeatures where
  has_https : ℚ
  suspicious_tld : ℚ
  is_ip_address : ℚ
  url_length : ℚ
  suspicious_keyword_count : ℚ

/-- Mutable state threaded through the six rules of `RuleEngine.analyze`
(rule_engine.py lines 35-41). -/
structure RuleState where
  verdict : Verdict
  risk_level : RiskLevel
  evidence : List EvidenceItem
  checked_items : List String
  identification_tips : List String
deriving DecidableEq

/-- Initial state of `RuleEngine.analyze`: SAFE / Low, all lists empty. -/
def init_rule_state : RuleState :=
  { verdict := Verdict.SAFE
    risk_level := RiskLevel.Low
    evidence := []
    checked_items := []
    identification_tips := [] }

/-- Strip leading and trailing whitespace from a character list (Python
`str.strip()` with no argument). -/
def trimChars (cs : List Char) : List Char :=
  ((cs.dropWhile Char.isWhitespace).reverse.dropWhile Char.isWhitespace).reverse

/-- `lower_url = url.lower().strip()` (rule_engine.py line 43), as ASCII
characters. -/
def lowerTrim (url : String) : List Char :=
  trimChars (url.toList.map Char.toLower)

/-- Rule 1, HTTPS check (rule_engine.py lines 46-61). -/
def rule1_https (f : RuleFeatures) (s : RuleState) : RuleState :=
  if f.has_https = 1 then
    { s with
      evidence := s.evidence ++ [⟨"Protocol Security", "safe", "check"⟩]
      checked_items := s.checked_items ++
        ["HTTPS protocol is enabled (encryption present)"] }
  else
    { s with
      evidence := s.evidence ++ [⟨"Protocol Security", "warning", "alert"⟩]
      checked_items := s.checked_items ++
        ["HTTPS protocol is missing (connection is not encrypted)"]
      verdict := Verdict.SUSPICIOUS
      risk_level := RiskLevel.Medium }

/-- Rule 2, suspicious TLD (rule_engine.py lines 64-74); appends evidence
only when it fires. -/
def rule2_tld (f : RuleFeatures) (s : RuleState) : RuleState :=
  if f.suspicious_tld = 1 then
    { s with
      evidence := s.evidence ++ [⟨"Domain Extension", "danger", "x"⟩]
      checked_items := s.checked_items ++
        ["Free or uncommon domain extension often associated with phishing"]
      verdict := Verdict.PHISHING
      risk_level := RiskLevel.High }
  else s

/-- Rule 3, IP address usage (rule_engine.py lines 77-90); appends evidence
only when it fires. -/
def rule3_ip (f : RuleFeatures) (s : RuleState) : RuleState :=
  if f.is_ip_address = 1 then
    { s with
      evidence := s.evidence ++ [⟨"IP Address Usage", "danger", "x"⟩]
      checked_items := s.checked_items ++
        ["URL uses an IP address instead of a domain name"]
      verdict := Verdict.PHISHING
      risk_level := RiskLevel.High
      identification_tips := s.identification_tips ++
        ["Legitimate websites typically use domain names, not raw IP addresses"] }
  else s

/-- `List.isPrefixOf`-based substring search (Python `re.search` of a fixed
literal alternative inside the lowercased URL). -/
def containsSub (pat : List Char) : List Char → Bool
  | [] => pat.isEmpty
  | c :: rest => pat.isPrefixOf (c :: rest) || containsSub pat rest

/-- The brand regexes of rule_engine.py lines 93-101, expanded into their
literal alternatives (the input is already lowercased, so `re.I` is
inert). -/
def brand_patterns : List (List String × String) :=
  [(["paypal", "paypa1", "paypai"], "PayPal"),
   (["amazon", "amaz0n", "amazn"], "Amazon"),
   (["google", "go0gle", "g0ogle", "g00gle"], "Google"),
   (["microsoft", "micr0soft", "micrsoft"], "Microsoft"),
   (["apple", "app1e", "aple"], "Apple"),
   (["facebook", "faceb0ok", "facebok"], "Facebook"),
   (["twitter", "tw1tter", "twtter"], "Twitter")]

/-- First brand whose pattern matches the lowercased URL (the `for`/`break`
loop of rule_engine.py lines 103-118 stops at the first match). -/
def first_brand (lower_url : List Char) : Option String :=
  (brand_patterns.find? (fun p =>
    p.1.any (fun alt => containsSub alt.toList lower_url))).map (fun p => p.2)

/-- Rule 4, brand imitation (rule_engine.py lines 92-118); appends evidence
only when some pattern matches. -/
def rule4_brand (url : String) (s : RuleState) : RuleState :=
  match first_brand (lowerTrim url) with
  | some brand =>
    { s with
      evidence := s.evidence ++ [⟨"Brand Imitation", "danger", "x"⟩]
      checked_items := s.checked_items ++
        ["Possible brand impersonation detected (resembles " ++ brand ++ ")"]
      verdict := Verdict.PHISHING
      risk_level := RiskLevel.High
      identification_tips := s.identification_tips ++
        ["Be cautious of URLs that imitate " ++ brand ++
         " using altered characters"] }
  | none => s

/-- Rule 5, URL length (rule_engine.py lines 121-142); appends one evidence
item on both branches, escalates only from SAFE. -/
def rule5_length (f : RuleFeatures) (s : RuleState) : RuleState :=
  if f.url_length > 75 then
    let s1 := { s with
      evidence := s.evidence ++ [⟨"URL Structure", "warning", "alert"⟩]
      checked_items := s.checked_items ++
        ["URL is unusually long (" ++ toString f.url_length ++ " characters)"] }
    if s1.verdict = Verdict.SAFE then
      { s1 with verdict := Verdict.SUSPICIOUS, risk_level := RiskLevel.Medium }
    else s1
  else
    { s with
      evidence := s.evidence ++ [⟨"URL Structure", "safe", "check"⟩]
      checked_items := s.checked_items ++
        ["URL length is within normal range (" ++ toString f.url_length ++
         " characters)"] }

/-- Rule 6, suspicious keywords (rule_engine.py lines 145-166); appends one
evidence item on both branches, escalates only from SAFE. -/
def rule6_keywords (f : RuleFeatures) (s : RuleState) : RuleState :=
  if f.suspicious_keyword_count > 0 then
    let s1 := { s with
      evidence := s.evidence ++ [⟨"Content Indicators", "warning", "alert"⟩]
      checked_items := s.checked_items ++
        ["Suspicious keywords related to authentication or payment detected"] }
    if s1.verdict = Verdict.SAFE then
      { s1 with verdict := Verdict.SUSPICIOUS, risk_level := RiskLevel.Medium }
    else s1
  else
    { s with
      evidence := s.evidence ++ [⟨"Content Indicators", "safe", "check"⟩]
      checked_items := s.checked_items ++
        ["No suspicious keywords detected in the URL"] }

/-- The verdict trajectory of one `RuleEngine.analyze` evaluation: the
initial state followed by the state after each of the six rules, in
evaluation order. -/
def rule_states (url : String) (f : RuleFeatures) : List RuleState :=
  let s0 := init_rule_state
  let s1 := rule1_https f s0
  let s2 := rule2_tld f s1
  let s3 := rule3_ip f s2
  let s4 := rule4_brand url s3
  let s5 := rule5_length f s4
  let s6 := rule6_keywords f s5
  [s0, s1, s2, s3, s4, s5, s6]

/-- Fallback explanation templates of rule_engine.py lines 171-188,
selected by the final rule verdict. -/
def ruleExplanation (v : Verdict) : String :=
  if v = Verdict.PHISHING then
    "Preliminary analysis (ML unavailable): We evaluated multiple technical indicators and detected several strong phishing signals. This is a rule-based assessment. For the most accurate analysis, ML-based detection is recommended when available."
  else if v = Verdict.SUSPICIOUS then
    "Preliminary analysis (ML unavailable): We evaluated multiple technical indicators and detected some warning signs. This is a rule-based assessment. For the most accurate analysis, ML-based detection is recommended when available."
  else
    "Preliminary analysis (ML unavailable): We evaluated multiple technical indicators and found no critical security issues. This is a rule-based assessment. For the most accurate analysis, ML-based detection is recommended when available."

/-- Default identification tips (rule_engine.py lines 191-197), appended
only when no rule supplied a specific tip. -/
def default_tips : List String :=
  ["Check for misspelled or altered brand names",
   "Avoid links that demand urgent action",
   "Be cautious with unfamiliar domain extensions",
   "Verify the website before entering sensitive information"]

/-- Action steps by final verdict (rule_engine.py lines 200-217). -/
def action_steps_for (v : Verdict) : List String :=
  if v = Verdict.PHISHING then
    ["Do not click the link",
     "Do not enter credentials or personal information",
     "Report the link if possible",
     "Visit the official website directly"]
  else if v = Verdict.SUSPICIOUS then
    ["Proceed with caution",
     "Verify the URL through official sources",
     "Avoid entering sensitive information"]
  else
    ["You may proceed, but remain alert",
     "Verify authenticity if sensitive data is requested"]

/-- Result dictionary of `RuleEngine.analyze` (rule_engine.py lines
219-227). -/
structure RuleResult where
  verdict : Verdict
  risk_level : RiskLevel
  explanation : String
  evidence : List EvidenceItem
  checked_items : List String
  identification_tips : List String
  action_steps : List String
deriving DecidableEq

/-- `RuleEngine.analyze` (rule_engine.py lines 23-227): the six rules in
fixed order, then the explanation, default tips and action steps. -/
def rule_engine_analyze (url : String) (f : RuleFeatures) : RuleResult :=
  let s := rule6_keywords f (rule5_length f (rule4_brand url
    (rule3_ip f (rule2_tld f (rule1_https f init_rule_state)))))
  { verdict := s.verdict
    risk_level := s.risk_level
    explanation := ruleExplanation s.verdict
    evidence := s.evidence
    checked_items := s.checked_items
    identification_tips :=
      if s.identification_tips.isEmpty then default_tips
      else s.identification_tips
    action_steps := action_steps_for s.verdict }

/-! ## ML vector extractor: `extract_features` (ml_feature_extractor.py) -/

/-- `normalized_url = url.strip()` with `https://` prepended when no
`http://` / `https://` scheme is present (ml_feature_extractor.py lines
32-34). -/
def normalizeForParse (url : String) : String :=
  let s := url.trim
  if s.startsWith "http://" || s.startsWith "https://" then s
  else "https://" ++ s

/-- Drop the scheme marker (`http://` or `https://`) from a normalised URL;
`urlparse` then reads netloc and path from the remainder. -/
def afterScheme (s : String) : String :=
  if s.startsWith "http://" then s.drop 7
  else if s.startsWith "https://" then s.drop 8
  else s

/-- Longest prefix containing none of the delimiter characters. -/
def takeUntilDelims (delims : List Char) : List Char → List Char
  | [] => []
  | c :: rest =>
    if delims.contains c then [] else c :: takeUntilDelims delims rest

/-- Everything after the last `'@'` (Python `netloc.rpartition('@')[2]`);
the whole list when there is no `'@'`. -/
def afterLastAt (cs : List Char) : List Char :=
  ((cs.reverse.takeWhile (fun c => ¬ c = '@')).reverse)

/-- Everything after the first occurrence of `c`. -/
def afterFirstChar (c : Char) : List Char → List Char
  | [] => []
  | x :: rest => if x = c then rest else afterFirstChar c rest

/-- `urlparse(...).hostname` for a netloc: strip userinfo at the last
`'@'`, then either the bracketed IPv6 body or everything before the first
`':'` (the port), lowercased (urllib's `_hostinfo` plus the lowercasing in
the `hostname` property). -/
def hostnameOfNetloc (netloc : List Char) : List Char :=
  let hostinfo := afterLastAt netloc
  let host :=
    if hostinfo.contains '[' then
      takeUntilDelims [']'] (afterFirstChar '[' hostinfo)
    else takeUntilDelims [':'] hostinfo
  host.map Char.toLower

/-- `suspicious_tlds` of ml_feature_extractor.py line 69. -/
def SUSPICIOUS_TLDS_ML : List String :=
  [".tk", ".ml", ".ga", ".cf", ".gq", ".xyz", ".top", ".click"]

/-- The anchored regex `^\d{1,3}(\.\d{1,3}){3}$` of
ml_feature_extractor.py line 74: exactly four dot-separated groups of one
to three digits (no range bound on the value). -/
def ipRegexMatch (hostname : List Char) : Bool :=
  match splitDots hostname [] with
  | [a, b, c, d] =>
    [a, b, c, d].all (fun g =>
      decide (1 ≤ g.length) && decide (g.length ≤ 3) && g.all Char.isDigit)
  | _ => false

/-- `extract_features` (ml_feature_extractor.py lines 17-111): the 7-entry
ML feature vector.  The Python NaN/Inf guard has no counterpart over `ℚ`
(every rational is finite); the `len < 7` guard and the zero-vector
fallback of the `except` branch are mirrored literally even though the
guard can never fire. -/
def extract_features (url : String) : List ℚ :=
  let normalized_url := normalizeForParse url
  let rest := (afterScheme normalized_url).toList
  let netloc := takeUntilDelims ['/', '?', '#'] rest
  let afterNetloc := rest.drop netloc.length
  let path := takeUntilDelims ['?', '#'] afterNetloc
  let hostname := hostnameOfNetloc netloc
  let f1 : ℚ := (url.length : ℚ)
  let f2 : ℚ := (hostname.length : ℚ)
  let f3 : ℚ := (path.length : ℚ)
  let f4 : ℚ := if normalized_url.startsWith "https://" then 1 else 0
  let f5 : ℚ :=
    if SUSPICIOUS_TLDS_ML.any (fun tld => tld.toList.isSuffixOf hostname)
    then 1 else 0
  let f6 : ℚ := if ipRegexMatch hostname then 1 else 0
  let f7 : ℚ := (hostname.count '.' : ℚ)
  let features := [f1, f2, f3, f4, f5, f6, f7]
  if features.length < 7 then List.replicate 7 (0 : ℚ)
  else features.take 7

/-! ## Helper lemmas -/

/-- The fallback branch never emits PHISHING. -/
lemma fallback_verdict_ne_phishing (domain : String) (rv : Option Verdict) :
    (fallbackResult domain rv).verdict ≠ Verdict.PHISHING := by
  unfold fallbackResult
  split
  · simp
  · cases rv with
    | none => simp
    | some b => cases b <;> simp

/-- The private-IP layer leaves no PHISHING verdict in place. -/
lemma private_layer_ne_phishing (privIp : Bool) (v2 : Verdict)
    (h : privIp = true) :
    (if privIp = true ∧ v2 = Verdict.PHISHING then Verdict.SUSPICIOUS else v2)
      ≠ Verdict.PHISHING := by
  subst h
  by_cases hv : v2 = Verdict.PHISHING <;> simp [hv]

/-- Hardening on a private-IP domain never returns PHISHING. -/
lemma applyHardening_private_not_phishing (domain : String) (conf : ℚ)
    (v0 : Verdict) (h : is_private_ip domain = true) :
    (applyHardening domain conf v0).1 ≠ Verdict.PHISHING := by
  unfold applyHardening
  exact private_layer_ne_phishing _ _ h

/-- Hardening a PHISHING verdict on a trusted domain: the override fires,
gating does not, and the verdict ends SAFE. -/
lemma applyHardening_trusted (domain : String) (conf : ℚ)
    (h1 : is_trusted domain = true) :
    applyHardening domain conf Verdict.PHISHING =
      (Verdict.SAFE, ⟨true, false, is_private_ip domain⟩) := by
  unfold applyHardening
  simp [h1]

/-- Hardening a SAFE verdict changes nothing but records the private-IP
flag. -/
lemma applyHardening_safe (domain : String) (conf : ℚ) :
    applyHardening domain conf Verdict.SAFE =
      (Verdict.SAFE, ⟨false, false, is_private_ip domain⟩) := by
  unfold applyHardening
  simp

/-- When the gating flag is set the trusted-domain override flag is not:
the override would already have rewritten the verdict to SAFE. -/
lemma gating_excludes_override (domain : String) (conf : ℚ) (v0 : Verdict)
    (h : (applyHardening domain conf v0).2.confidence_gating_applied = true) :
    (applyHardening domain conf v0).2.trusted_domain_override = false := by
  unfold applyHardening at h ⊢
  by_cases ho : is_trusted domain = true ∧ v0 = Verdict.PHISHING
  · simp [ho] at h
  · simp [ho]

/-- `round(0.0 * 100, 2) = 0.0`. -/
lemma pyRound2_zero : pyRound2 (0 * 100) = 0 := by
  norm_num [pyRound2, roundHalfEven, ratFloor]

/-! ## Claims about the decision-fusion core -/

/-- Claim C1: on the classifier path the reported confidence is exactly the
clamped classifier probability times 100, rounded to two decimal places,
for every extracted domain and rule verdict — so none of the three
hardening layers (whose firing is controlled by `domain` and `p`) alters
the confidence value; they adjust only verdict and risk level. -/
theorem C1_confidence_preserved (p : ℚ) (domain : String)
    (rv : Option Verdict) :
    (analyzeDecision ⟨true, p, domain, rv⟩).confidence =
      pyRound2 (clamp01 p * 100) := rfl

/-- Claim C2 counterexample: the claim asserts the gating downgrade with no
precondition excluding trusted domains, but for the trusted domain
`wikipedia.org` with probability 0.8 (raw verdict PHISHING, below the 0.85
threshold) the trusted-domain override runs first and the final verdict is
SAFE, not SUSPICIOUS. -/
theorem C2_counterexample :
    thresholdVerdict (clamp01 (mkRat 4 5)) = Verdict.PHISHING ∧
    clamp01 (mkRat 4 5) < PHISHING_HARD_THRESHOLD ∧
    (analyzeDecision ⟨true, mkRat 4 5, "wikipedia.org", none⟩).verdict =
      Verdict.SAFE := by
  decide

/-- Claim C2 (amended): when the classifier is available, its raw verdict
is PHISHING with clamped probability below 0.85, and the extracted domain
is not trusted, the final verdict is SUSPICIOUS. -/
theorem C2_gating_downgrade (p : ℚ) (domain : String) (rv : Option Verdict)
    (h1 : thresholdVerdict (clamp01 p) = Verdict.PHISHING)
    (h2 : clamp01 p < PHISHING_HARD_THRESHOLD)
    (h3 : is_trusted domain = false) :
    (analyzeDecision ⟨true, p, domain, rv⟩).verdict = Verdict.SUSPICIOUS := by
  show (hardeningOutcome domain p).1 = Verdict.SUSPICIOUS
  unfold hardeningOutcome applyHardening
  rw [h1]
  simp [h3, h2]

/-- Witness for C2's amended theorem at probability 0.8 and an untrusted
domain. -/
theorem C2_gating_downgrade_witness :
    (analyzeDecision ⟨true, mkRat 4 5, "phishy-site.com", none⟩).verdict =
      Verdict.SUSPICIOUS :=
  C2_gating_downgrade (mkRat 4 5) "phishy-site.com" none (by decide)
    (by decide) (by decide)

/-- Claim C3: classifier available, raw verdict PHISHING, extracted domain
trusted (equal to or a subdomain of an allowlist entry): the final verdict
is SAFE, the risk level is Low, and the reported confidence is the
unmodified classifier probability times 100 rounded to two decimal
places. -/
theorem C3_trusted_override (p : ℚ) (domain : String) (rv : Option Verdict)
    (h1 : is_trusted domain = true)
    (h2 : thresholdVerdict (clamp01 p) = Verdict.PHISHING) :
    (analyzeDecision ⟨true, p, domain, rv⟩).verdict = Verdict.SAFE ∧
    (analyzeDecision ⟨true, p, domain, rv⟩).riskLevel = RiskLevel.Low ∧
    (analyzeDecision ⟨true, p, domain, rv⟩).confidence =
      pyRound2 (clamp01 p * 100) := by
  have hh : hardeningOutcome domain p =
      (Verdict.SAFE, ⟨true, false, is_private_ip domain⟩) := by
    unfold hardeningOutcome
    rw [h2]
    exact applyHardening_trusted domain (clamp01 p) h1
  refine ⟨?_, ?_, rfl⟩
  · show (hardeningOutcome domain p).1 = Verdict.SAFE
    rw [hh]
  · show (explanationAndRisk (hardeningOutcome domain p).2
      (hardeningOutcome domain p).1
      (riskOf (hardeningOutcome domain p).1)).2 = RiskLevel.Low
    rw [hh]
    rfl

/-- Witness for C3 at `en.wikipedia.org` with probability 0.95. -/
theorem C3_trusted_override_witness :
    (analyzeDecision ⟨true, mkRat 19 20, "en.wikipedia.org", none⟩).verdict =
        Verdict.SAFE ∧
    (analyzeDecision ⟨true, mkRat 19 20, "en.wikipedia.org", none⟩).riskLevel =
        RiskLevel.Low ∧
    (analyzeDecision ⟨true, mkRat 19 20, "en.wikipedia.org", none⟩).confidence =
        pyRound2 (clamp01 (mkRat 19 20) * 100) :=
  C3_trusted_override (mkRat 19 20) "en.wikipedia.org" none (by decide)
    (by decide)

/-- Claim C4: whenever the extracted domain parses as a private-range IP
address, the final verdict is never PHISHING — on the classifier path
(whatever the probability) and on the fallback path alike. -/
theorem C4_private_ip_never_phishing (mlA : Bool) (p : ℚ) (domain : String)
    (rv : Option Verdict) (h : is_private_ip domain = true) :
    (analyzeDecision ⟨mlA, p, domain, rv⟩).verdict ≠ Verdict.PHISHING := by
  cases mlA with
  | false => exact fallback_verdict_ne_phishing domain rv
  | true =>
    show (hardeningOutcome domain p).1 ≠ Verdict.PHISHING
    exact applyHardening_private_not_phishing domain (clamp01 p)
      (thresholdVerdict (clamp01 p)) h

/-- Witness for C4 at the private address `192.168.1.1` with the classifier
reporting probability 0.9. -/
theorem C4_private_ip_never_phishing_witness :
    (analyzeDecision ⟨true, mkRat 9 10, "192.168.1.1", none⟩).verdict ≠
      Verdict.PHISHING :=
  C4_private_ip_never_phishing true (mkRat 9 10) "192.168.1.1" none
    (by decide)

/-- Claim C5: in fallback mode (classifier absent or failed) the final
verdict is never PHISHING, the risk level is never High and is Low exactly
for a SAFE verdict, the reported confidence is exactly 0, and outside the
hardcoded safe-domain allowlist an explainer verdict of PHISHING is
downgraded to SUSPICIOUS. -/
theorem C5_fallback_capped (p : ℚ) (domain : String) (rv : Option Verdict) :
    (analyzeDecision ⟨false, p, domain, rv⟩).verdict ≠ Verdict.PHISHING ∧
    (analyzeDecision ⟨false, p, domain, rv⟩).riskLevel ≠ RiskLevel.High ∧
    ((analyzeDecision ⟨false, p, domain, rv⟩).riskLevel = RiskLevel.Low ↔
      (analyzeDecision ⟨false, p, domain, rv⟩).verdict = Verdict.SAFE) ∧
    (analyzeDecision ⟨false, p, domain, rv⟩).confidence = 0 ∧
    (FALLBACK_SAFE_DOMAINS.contains domain = false →
      rv = some Verdict.PHISHING →
      (analyzeDecision ⟨false, p, domain, rv⟩).verdict = Verdict.SUSPICIOUS) := by
  show (fallbackResult domain rv).verdict ≠ Verdict.PHISHING ∧
    (fallbackResult domain rv).riskLevel ≠ RiskLevel.High ∧
    ((fallbackResult domain rv).riskLevel = RiskLevel.Low ↔
      (fallbackResult domain rv).verdict = Verdict.SAFE) ∧
    (fallbackResult domain rv).confidence = 0 ∧
    (FALLBACK_SAFE_DOMAINS.contains domain = false →
      rv = some Verdict.PHISHING →
      (fallbackResult domain rv).verdict = Verdict.SUSPICIOUS)
  unfold fallbackResult
  split
  · refine ⟨by simp, by simp, by simp, pyRound2_zero, ?_⟩
    intro hc _
    simp_all
  · refine ⟨?_, ?_, ?_, pyRound2_zero, ?_⟩
    · cases rv with
      | none => simp
      | some b => cases b <;> simp
    · cases rv with
      | none => simp
      | some b => cases b <;> simp
    · cases rv with
      | none => simp
      | some b => cases b <;> simp
    · intro _ hrv
      subst hrv
      simp

/-- Witness for C5's fallback clause: explainer verdict PHISHING on an
unlisted domain yields SUSPICIOUS with confidence 0. -/
theorem C5_fallback_capped_witness :
    (analyzeDecision ⟨false, 0, "phishy-site.com", some Verdict.PHISHING⟩).verdict =
        Verdict.SUSPICIOUS ∧
    (analyzeDecision ⟨false, 0, "phishy-site.com", some Verdict.PHISHING⟩).confidence =
        0 := by
  have h := C5_fallback_capped 0 "phishy-site.com" (some Verdict.PHISHING)
  exact ⟨h.2.2.2.2 (by decide) rfl, h.2.2.2.1⟩

/-- Claim C8 counterexample: at `192.168.1.1` with probability 0.75 both
the confidence-gating flag and the private-IP flag are set, yet the
explanation produced is the private-IP one, not the gating one — the
dispatch order is override, private-IP, gating, not the layer evaluation
order override, gating, private-IP. -/
theorem C8_counterexample :
    (hardeningOutcome "192.168.1.1" (mkRat 3 4)).2.confidence_gating_applied =
        true ∧
    (hardeningOutcome "192.168.1.1" (mkRat 3 4)).2.private_ip_detected =
        true ∧
    (analyzeDecision ⟨true, mkRat 3 4, "192.168.1.1", none⟩).explanation ≠
        ExplMode.confidenceGating ∧
    (analyzeDecision ⟨true, mkRat 3 4, "192.168.1.1", none⟩).explanation =
        ExplMode.privateIP := by
  decide

/-- Claim C8 (amended): the explanation is driven by exactly one mode flag,
chosen first-applicable in the dispatch order trusted-override, private-IP,
confidence-gating; in particular when both the gating flag and the
private-IP flag are set, the private-IP explanation is the one produced. -/
theorem C8_private_over_gating (p : ℚ) (domain : String) (rv : Option Verdict)
    (hg : (hardeningOutcome domain p).2.confidence_gating_applied = true)
    (hp : (hardeningOutcome domain p).2.private_ip_detected = true) :
    (analyzeDecision ⟨true, p, domain, rv⟩).explanation = ExplMode.privateIP := by
  have ho : (hardeningOutcome domain p).2.trusted_domain_override = false :=
    gating_excludes_override domain (clamp01 p) (thresholdVerdict (clamp01 p)) hg
  show (explanationAndRisk (hardeningOutcome domain p).2
    (hardeningOutcome domain p).1
    (riskOf (hardeningOutcome domain p).1)).1 = ExplMode.privateIP
  unfold explanationAndRisk
  simp [ho, hp]

/-- Witness for C8's amended theorem at `192.168.1.1`, probability 0.75. -/
theorem C8_private_over_gating_witness :
    (analyzeDecision ⟨true, mkRat 3 4, "192.168.1.1", some Verdict.SAFE⟩).explanation =
      ExplMode.privateIP :=
  C8_private_over_gating (mkRat 3 4) "192.168.1.1" (some Verdict.SAFE)
    (by decide) (by decide)

/-- Claim C10: on the classifier path with a private-IP domain and a
probability below the SAFE threshold (0.4), the private-IP flag is set even
though the verdict was never PHISHING, the final verdict is SAFE, the risk
level is forced to Medium by the private-IP explanation branch, and the
private-IP explanation is used — so a SAFE verdict is paired with a Medium
risk level. -/
theorem C10_private_ip_safe_medium (p : ℚ) (domain : String)
    (rv : Option Verdict) (hpriv : is_private_ip domain = true)
    (hp : clamp01 p < mkRat 2 5) :
    (analyzeDecision ⟨true, p, domain, rv⟩).verdict = Verdict.SAFE ∧
    (analyzeDecision ⟨true, p, domain, rv⟩).riskLevel = RiskLevel.Medium ∧
    (analyzeDecision ⟨true, p, domain, rv⟩).explanation = ExplMode.privateIP ∧
    (hardeningOutcome domain p).2.private_ip_detected = true := by
  have h1 : ¬ (mkRat 7 10 ≤ clamp01 p) := fun hc =>
    absurd (lt_of_le_of_lt
      (le_trans (by decide : (mkRat 2 5 : ℚ) ≤ mkRat 7 10) hc) hp)
      (lt_irrefl _)
  have h2 : ¬ (mkRat 2 5 ≤ clamp01 p) := fun hc =>
    absurd (lt_of_le_of_lt hc hp) (lt_irrefl _)
  have hv0 : thresholdVerdict (clamp01 p) = Verdict.SAFE := by
    unfold thresholdVerdict
    rw [if_neg h1, if_neg h2]
  have hh : hardeningOutcome domain p =
      (Verdict.SAFE, ⟨false, false, is_private_ip domain⟩) := by
    unfold hardeningOutcome
    rw [hv0]
    exact applyHardening_safe domain (clamp01 p)
  refine ⟨?_, ?_, ?_, by rw [hh]; exact hpriv⟩
  · show (hardeningOutcome domain p).1 = Verdict.SAFE
    rw [hh]
  · show (explanationAndRisk (hardeningOutcome domain p).2
      (hardeningOutcome domain p).1
      (riskOf (hardeningOutcome domain p).1)).2 = RiskLevel.Medium
    rw [hh]
    unfold explanationAndRisk
    simp [hpriv]
  · show (explanationAndRisk (hardeningOutcome domain p).2
      (hardeningOutcome domain p).1
      (riskOf (hardeningOutcome domain p).1)).1 = ExplMode.privateIP
    rw [hh]
    unfold explanationAndRisk
    simp [hpriv]

/-- Witness for C10 at `192.168.1.1` with probability 0.2. -/
theorem C10_private_ip_safe_medium_witness :
    (analyzeDecision ⟨true, mkRat 1 5, "192.168.1.1", none⟩).verdict =
        Verdict.SAFE ∧
    (analyzeDecision ⟨true, mkRat 1 5, "192.168.1.1", none⟩).riskLevel =
        RiskLevel.Medium ∧
    (analyzeDecision ⟨true, mkRat 1 5, "192.168.1.1", none⟩).explanation =
        ExplMode.privateIP ∧
    (hardeningOutcome "192.168.1.1" (mkRat 1 5)).2.private_ip_detected =
        true :=
  C10_private_ip_safe_medium (mkRat 1 5) "192.168.1.1" none (by decide)
    (by decide)

/-! ## Claims about the heuristic explainer and the ML extractor -/

/-- Rank of a verdict under the total order SAFE < SUSPICIOUS < PHISHING. -/
def vrank : Verdict → Nat
  | Verdict.SAFE => 0
  | Verdict.SUSPICIOUS => 1
  | Verdict.PHISHING => 2

/-- Every verdict ranks at most PHISHING. -/
lemma vrank_le_two (v : Verdict) : vrank v ≤ 2 := by
  cases v <;> simp [vrank]

/-- Rule 2 never lowers the verdict rank. -/
lemma rule2_mono (f : RuleFeatures) (s : RuleState) :
    vrank s.verdict ≤ vrank (rule2_tld f s).verdict := by
  unfold rule2_tld
  split
  · exact vrank_le_two s.verdict
  · exact le_refl _

/-- Rule 3 never lowers the verdict rank. -/
lemma rule3_mono (f : RuleFeatures) (s : RuleState) :
    vrank s.verdict ≤ vrank (rule3_ip f s).verdict := by
  unfold rule3_ip
  split
  · exact vrank_le_two s.verdict
  · exact le_refl _

/-- Rule 4 never lowers the verdict rank. -/
lemma rule4_mono (url : String) (s : RuleState) :
    vrank s.verdict ≤ vrank (rule4_brand url s).verdict := by
  unfold rule4_brand
  cases first_brand (lowerTrim url) with
  | some brand => exact vrank_le_two s.verdict
  | none => exact le_refl _

/-- Rule 5 never lowers the verdict rank: it escalates only from SAFE. -/
lemma rule5_mono (f : RuleFeatures) (s : RuleState) :
    vrank s.verdict ≤ vrank (rule5_length f s).verdict := by
  unfold rule5_length
  split
  · dsimp only
    split
    · next h =>
      simp only [h]
      simp [vrank]
    · exact le_refl _
  · exact le_refl _

/-- Rule 6 never lowers the verdict rank: it escalates only from SAFE. -/
lemma rule6_mono (f : RuleFeatures) (s : RuleState) :
    vrank s.verdict ≤ vrank (rule6_keywords f s).verdict := by
  unfold rule6_keywords
  split
  · dsimp only
    split
    · next h =>
      simp only [h]
      simp [vrank]
    · exact le_refl _
  · exact le_refl _

/-- Claim C7: within one `RuleEngine.analyze` evaluation the internal
verdict is monotonically non-decreasing under SAFE < SUSPICIOUS < PHISHING
along the six rules in their fixed evaluation order — no rule downgrades a
verdict set by an earlier rule. -/
theorem C7_verdict_monotone (url : String) (f : RuleFeatures) :
    (rule_states url f).Chain' (fun a b => vrank a.verdict ≤ vrank b.verdict) := by
  unfold rule_states
  refine List.chain'_cons.mpr ⟨?_, ?_⟩
  · exact Nat.zero_le _
  refine List.chain'_cons.mpr ⟨rule2_mono f _, ?_⟩
  refine List.chain'_cons.mpr ⟨rule3_mono f _, ?_⟩
  refine List.chain'_cons.mpr ⟨rule4_mono url _, ?_⟩
  refine List.chain'_cons.mpr ⟨rule5_mono f _, ?_⟩
  refine List.chain'_cons.mpr ⟨rule6_mono f _, ?_⟩
  exact List.chain'_singleton _

/-- Rule 1 appends exactly one evidence item on either branch. -/
lemma rule1_evlen (f : RuleFeatures) (s : RuleState) :
    (rule1_https f s).evidence.length = s.evidence.length + 1 := by
  unfold rule1_https
  split <;> simp

/-- Rule 2 appends one evidence item exactly when it fires. -/
lemma rule2_evlen (f : RuleFeatures) (s : RuleState) :
    (rule2_tld f s).evidence.length =
      s.evidence.length + (if f.suspicious_tld = 1 then 1 else 0) := by
  unfold rule2_tld
  split
  · next h => simp [h]
  · next h => simp [h]

/-- Rule 3 appends one evidence item exactly when it fires. -/
lemma rule3_evlen (f : RuleFeatures) (s : RuleState) :
    (rule3_ip f s).evidence.length =
      s.evidence.length + (if f.is_ip_address = 1 then 1 else 0) := by
  unfold rule3_ip
  split
  · next h => simp [h]
  · next h => simp [h]

/-- Rule 4 appends one evidence item exactly when a brand pattern
matches. -/
lemma rule4_evlen (url : String) (s : RuleState) :
    (rule4_brand url s).evidence.length =
      s.evidence.length +
        (if (first_brand (lowerTrim url)).isSome then 1 else 0) := by
  unfold rule4_brand
  cases h : first_brand (lowerTrim url) <;> simp [h]

/-- Rule 5 appends exactly one evidence item on either branch. -/
lemma rule5_evlen (f : RuleFeatures) (s : RuleState) :
    (rule5_length f s).evidence.length = s.evidence.length + 1 := by
  unfold rule5_length
  split
  · dsimp only
    split <;> simp
  · simp

/-- Rule 6 appends exactly one evidence item on either branch. -/
lemma rule6_evlen (f : RuleFeatures) (s : RuleState) :
    (rule6_keywords f s).evidence.length = s.evidence.length + 1 := by
  unfold rule6_keywords
  split
  · dsimp only
    split <;> simp
  · simp

/-- Claim C9 counterexample: for `https://example.com` (HTTPS present, no
suspicious TLD, no IP literal, no brand match, short, no keywords) the
evidence list has 3 entries, not 6 — rules 2, 3 and 4 append no evidence
item when they do not fire. -/
theorem C9_counterexample :
    (rule_engine_analyze "https://example.com"
      ⟨1, 0, 0, 19, 0⟩).evidence.length ≠ 6 := by
  decide

/-- Claim C9 (amended): rules 1, 5 and 6 always append exactly one evidence
item, while rules 2, 3 and 4 append one exactly when they fire, so the
evidence list has 3 entries plus one per fired conditional rule (between 3
and 6), in rule-evaluation order. -/
theorem C9_evidence_count (url : String) (f : RuleFeatures) :
    (rule_engine_analyze url f).evidence.length =
      3 + (if f.suspicious_tld = 1 then 1 else 0)
        + (if f.is_ip_address = 1 then 1 else 0)
        + (if (first_brand (lowerTrim url)).isSome then 1 else 0) := by
  show (rule6_keywords f (rule5_length f (rule4_brand url
      (rule3_ip f (rule2_tld f (rule1_https f init_rule_state)))))).evidence.length = _
  rw [rule6_evlen, rule5_evlen, rule4_evlen, rule3_evlen, rule2_evlen,
    rule1_evlen]
  show [].length + 1 + _ + _ + _ + 1 + 1 = _
  simp only [List.length_nil]
  omega

/-- Claim C6: `extract_features` returns a list of exactly 7 features for
every string input (over `ℚ` every value is finite by construction; the
Python fault branch that would return the zero-filled 7-vector is mirrored
in the definition and also has length 7). -/
theorem C6_extract_features_arity (url : String) :
    (extract_features url).length = 7 := by
  unfold extract_features
  dsimp only
  split <;> simp
